import Mathlib

/-!
Verification of the python-bru OpenAPI-to-Bruno conversion pipeline.

This file shallowly embeds the transformation pipeline of the repository:
`app/openapi/parser.py` (schema parsing and reference resolution),
`app/openapi/coupler.py` (coupling the API model into the Bruno target
model) and `app/bruno/parts.py` (serialization to the `.bru` block
format), together with the shared enums of `app/common.py`, and proves
properties of the embedded code.

Python dictionaries are embedded as ordered association lists, machine
integers as `Int`, and every fallible code path (`KeyError`,
`TypeError`, `ValueError`, `AttributeError`, unbound locals, enum
lookups, pydantic field validation) as `Except String`.  Dynamic typing that the source relies on
is made explicit: for example `RequestBodyType.from_content_type`
receives either Python `None`, a `str`, or (through a bug in the
coupler) an already-converted `RequestBodyType` enum member, so its
embedded argument is a sum of those three shapes.
-/

namespace PyBru

set_option maxRecDepth 100000
set_option maxHeartbeats 1600000

/-- JSON-like values: the untyped data (defaults, enum members) carried
inside the raw OpenAPI schema.  `obj` keeps document order, like a
Python `dict`. -/
inductive JVal where
  | s (v : String)
  | i (v : Int)
  | b (v : Bool)
  | null
  | arr (vs : List JVal)
  | obj (fs : List (String × JVal))
deriving Inhabited

/-- Python truthiness of a `JVal` (`bool(x)`): empty string, zero,
`False`, `None`, empty list and empty dict are falsy. -/
def JVal.truthy : JVal → Bool
  | .s v => !(v == "")
  | .i v => !(v == 0)
  | .b v => v
  | .null => false
  | .arr vs => !vs.isEmpty
  | .obj fs => !fs.isEmpty

/-- `dict.get(key)` on an embedded Python dict: first binding wins. -/
def pyGet (fs : List (String × JVal)) (k : String) : Option JVal :=
  match fs.find? (fun kv => kv.1 = k) with
  | some kv => some kv.2
  | none => none

/-- `'sep'.join(parts)`: join a list of strings with a separator. -/
def joinSep (sep : String) : List String → String
  | [] => ""
  | [x] => x
  | x :: y :: t => x ++ sep ++ joinSep sep (y :: t)

/-- Python `str()` / `repr()` of a `JVal`: with `quoted := false` the
top level is `str()` (unquoted strings, as in an f-string), with
`quoted := true` it is `repr()` (strings in quotes, as inside
containers).  `None`/`True`/`False` use Python spelling; `fuel` bounds
the recursion depth like the CPython recursion limit. -/
def pyShowAux : Nat → Bool → JVal → String
  | _, false, .s v => v
  | _, true, .s v => "'" ++ v ++ "'"
  | _, _, .i v => toString v
  | _, _, .b true => "True"
  | _, _, .b false => "False"
  | _, _, .null => "None"
  | 0, _, .arr _ => "..."
  | fuel + 1, _, .arr vs => "[" ++ joinSep ", " (vs.map (pyShowAux fuel true)) ++ "]"
  | 0, _, .obj _ => "..."
  | fuel + 1, _, .obj fs =>
    "\x7b" ++
      joinSep ", "
        (fs.map (fun kv => "'" ++ kv.1 ++ "': " ++ pyShowAux fuel true kv.2)) ++
    "\x7d"

/-- Python `str()` of a `JVal` as an f-string renders it. -/
def pyShow (fuel : Nat) (v : JVal) : String :=
  pyShowAux fuel false v

/-- JSON string escaping as done by `json.dumps` (only the characters
that can occur in this pipeline's identifiers and defaults). -/
def jsonEscape (s : String) : String :=
  String.mk (s.data.flatMap (fun c =>
    if c = '"' then ['\\', '"']
    else if c = '\\' then ['\\', '\\']
    else if c = '\n' then ['\\', 'n']
    else [c]))

/-- Two-space padding used by `json.dumps(..., indent=2)`. -/
def jsonPad (level : Nat) : String :=
  String.mk (List.replicate (2 * level) ' ')

/-- `json.dumps(v, indent=2)` rendered at nesting `level`; `fuel`
bounds recursion depth (CPython would hit its recursion limit on
deeper documents). -/
def jsonDumps (fuel : Nat) (level : Nat) : JVal → String
  | .null => "null"
  | .b true => "true"
  | .b false => "false"
  | .i n => toString n
  | .s v => "\"" ++ jsonEscape v ++ "\""
  | .arr [] => "[]"
  | .arr vs =>
    match fuel with
    | 0 => "..."
    | fuel + 1 =>
      "[\n" ++
        joinSep ",\n"
          (vs.map (fun v => jsonPad (level + 1) ++ jsonDumps fuel (level + 1) v)) ++
      "\n" ++ jsonPad level ++ "]"
  | .obj [] => "\x7b\x7d"
  | .obj fs =>
    match fuel with
    | 0 => "..."
    | fuel + 1 =>
      "\x7b\n" ++
        joinSep ",\n"
          (fs.map (fun kv =>
            jsonPad (level + 1) ++ "\"" ++ jsonEscape kv.1 ++ "\": " ++
              jsonDumps fuel (level + 1) kv.2)) ++
      "\n" ++ jsonPad level ++ "\x7d"

/-- Recursion allowance standing in for CPython's recursion limit. -/
def FUEL : Nat := 1000

/-! ## Shared enums (`app/common.py`, plus the parameter placement enum) -/

/-- Modelled from the spec: the `ParamPlacement` enum is imported from
`app.common` by the parser, the coupler and the Bruno parts, but its
declaration is missing from `src/app/common.py`.  Per the spec's data
model, `placement` is "one of `path`, `query`, `header`, or absent for
body properties", and the members are looked up by the raw `in` field's
value (`path` / `query` / `header`), so the enum has exactly those
three members with those string values. -/
inductive ParamPlacement where
  | PATH
  | QUERY
  | HEADER
deriving Repr, DecidableEq, Inhabited

/-- `ParamPlacement(value)`: Python enum lookup by value; an unknown
value raises `ValueError`, embedded as `none` at the call sites. -/
def ParamPlacement.ofValue : String → Option ParamPlacement
  | "path" => some .PATH
  | "query" => some .QUERY
  | "header" => some .HEADER
  | _ => none

/-- `RequestBodyType` from `app/common.py`. -/
inductive RequestBodyType where
  | NONE
  | JSON
  | FORM_URL_ENCODED
deriving Repr, DecidableEq, Inhabited

/-- `.value` of a `RequestBodyType` member. -/
def RequestBodyType.value : RequestBodyType → String
  | .NONE => "none"
  | .JSON => "json"
  | .FORM_URL_ENCODED => "formUrlEncoded"

/-- Python `str()` of a `RequestBodyType` member (the default
`enum.Enum.__str__`), as an f-string renders it. -/
def RequestBodyType.pyStr : RequestBodyType → String
  | .NONE => "RequestBodyType.NONE"
  | .JSON => "RequestBodyType.JSON"
  | .FORM_URL_ENCODED => "RequestBodyType.FORM_URL_ENCODED"

/-- `RequestBodyType.body_block_type`: the block-kind tag used in the
`body:<kind>` header line. -/
def RequestBodyType.body_block_type : RequestBodyType → String
  | .NONE => "none"
  | .JSON => "json"
  | .FORM_URL_ENCODED => "form-urlencoded"

/-- The dynamic argument shapes `RequestBodyType.from_content_type`
actually receives: Python `None`, a content-type `str` (from the
parser), or an already-converted `RequestBodyType` member (from the
coupler, which passes `endpoint.body.content_type` — already an enum —
back into `from_content_type`). -/
inductive PyContentType where
  | pynone
  | pystr (s : String)
  | pyenum (e : RequestBodyType)
deriving Repr, DecidableEq, Inhabited

/-- `RequestBodyType.from_content_type` (`app/common.py`): `None`
maps to `NONE`; the exact string `application/x-www-form-urlencoded`
maps to `FORM_URL_ENCODED`; anything else — including a
`RequestBodyType` enum member, which is neither `None` nor equal to
that string — maps to `JSON`. -/
def RequestBodyType.from_content_type : PyContentType → RequestBodyType
  | .pynone => .NONE
  | .pystr s =>
    if s = "application/x-www-form-urlencoded" then .FORM_URL_ENCODED else .JSON
  | .pyenum _ => .JSON

/-- The standard-library `http.HTTPMethod` enum (`from http import
HTTPMethod` in `app/openapi/parser.py`); its member values equal the
member names. -/
inductive HTTPMethod where
  | GET
  | HEAD
  | POST
  | PUT
  | DELETE
  | CONNECT
  | OPTIONS
  | TRACE
  | PATCH
deriving Repr, DecidableEq, Inhabited

/-- The name (= value) of an `http.HTTPMethod` member. -/
def HTTPMethod.name : HTTPMethod → String
  | .GET => "GET"
  | .HEAD => "HEAD"
  | .POST => "POST"
  | .PUT => "PUT"
  | .DELETE => "DELETE"
  | .CONNECT => "CONNECT"
  | .OPTIONS => "OPTIONS"
  | .TRACE => "TRACE"
  | .PATCH => "PATCH"

/-- `HTTPMethod(value)`: lookup by value; unknown values raise
`ValueError`, embedded as `none` at the call site. -/
def HTTPMethod.ofValue : String → Option HTTPMethod
  | "GET" => some .GET
  | "HEAD" => some .HEAD
  | "POST" => some .POST
  | "PUT" => some .PUT
  | "DELETE" => some .DELETE
  | "CONNECT" => some .CONNECT
  | "OPTIONS" => some .OPTIONS
  | "TRACE" => some .TRACE
  | "PATCH" => some .PATCH
  | _ => none

/-- `method.lower()` on the string-valued enum member. -/
def HTTPMethod.lower : HTTPMethod → String
  | .GET => "get"
  | .HEAD => "head"
  | .POST => "post"
  | .PUT => "put"
  | .DELETE => "delete"
  | .CONNECT => "connect"
  | .OPTIONS => "options"
  | .TRACE => "trace"
  | .PATCH => "patch"

/-! ## String helpers mirroring the Python primitives used -/

/-- Python `str.upper()` restricted to ASCII, as applied to HTTP method
names. -/
def pyUpper (s : String) : String :=
  String.mk (s.data.map Char.toUpper)

/-- Python `'{' in path`: substring membership of a single character. -/
def strHasChar (s : String) (c : Char) : Bool :=
  s.data.contains c

/-- `OpenAPIParser.dup_fig_par`:
`string.replace('{', '{{').replace('}', '}}')`.  Because the first
`replace` introduces no `'}'` and the second introduces no `'{'`, the
chained replaces are exactly the character-wise doubling of every brace,
which is how we embed them. -/
def dup_fig_par (s : String) : String :=
  String.mk (s.data.flatMap (fun c =>
    if c = '\x7b' then ['\x7b', '\x7b']
    else if c = '\x7d' then ['\x7d', '\x7d']
    else [c]))

/-- Python `str.startswith(pre)` via the character lists (keeps kernel
reduction cheap). -/
def strStartsWith (s pre : String) : Bool :=
  pre.data.isPrefixOf s.data

/-- Split a character list on a separator character, keeping empty
segments (Python `str.split(sep)` semantics). -/
def splitCharAux (c : Char) : List Char → List Char → List (List Char)
  | [], acc => [acc.reverse]
  | a :: t, acc =>
    if a = c then acc.reverse :: splitCharAux c t []
    else splitCharAux c t (a :: acc)

/-- Split a string on a separator character. -/
def splitChar (c : Char) (s : String) : List String :=
  (splitCharAux c s.data []).map String.mk

/-- The components of a `pathlib.PurePosixPath`: split on `/`, dropping
empty segments and `.` segments (pure-path normalization). -/
def pathSegs (s : String) : List String :=
  (splitChar '/' s).filter (fun seg => seg ≠ "" ∧ seg ≠ ".")

/-- `str(pathlib.Path(s))` for the POSIX paths this pipeline handles:
leading `/` is kept, empty and `.` segments are dropped. -/
def pathNorm (s : String) : String :=
  let abs := strStartsWith s "/"
  let segs := pathSegs s
  if segs = [] then (if abs then "/" else ".")
  else (if abs then "/" else "") ++ joinSep "/" segs

/-- `pathlib.Path(s).stem`: the final component without its suffix (a
suffix needs a dot after the first character of the name). -/
def pathStem (s : String) : String :=
  match (pathSegs s).getLast? with
  | none => ""
  | some nm =>
    match nm.data with
    | [] => nm
    | c0 :: rest =>
      if rest.contains '.' then
        String.mk (c0 :: ((rest.reverse.dropWhile (fun c => c ≠ '.')).drop 1).reverse)
      else nm

/-- Sequential traversal of a Python list comprehension or loop whose
body can raise: stops at the first error. -/
def mapE {α β : Type} (f : α → Except String β) : List α → Except String (List β)
  | [] => .ok []
  | a :: t =>
    match f a with
    | .error e => .error e
    | .ok b =>
      match mapE f t with
      | .error e => .error e
      | .ok bs => .ok (b :: bs)

/-! ## Raw OpenAPI schema (typed views of the dict shapes the parser reads)

The parser reads the raw JSON document through fixed key paths; the
structures below are the typed views of exactly those shapes.  A key the
code reads with `[...]` (raising `KeyError` when absent) is an `Option`
field when live schemas may omit it; keys the code reads only after
guaranteeing their presence stay mandatory. -/

/-- The `schema` sub-dict of a raw parameter
(`data['schema']` in `_parse_parameter` and friends). -/
structure RawParamSchema where
  type_ : Option String := none
  default : Option JVal := none
  /-- `allOf`, collapsed to the list of the entries' `$ref` strings
  (the code only ever reads `all_of[0]['$ref']`). -/
  allOf : Option (List String) := none
  /-- `$ref` -/
  ref : Option String := none
deriving Inhabited

/-- One entry of a method's `parameters` list. -/
structure RawParameter where
  name : String
  /-- the raw `in` field (`data['in']` / `data.get('in')`) -/
  in_ : Option String := none
  /-- `data['required']` / `data.get('required', False)` -/
  required : Option Bool := none
  schema : RawParamSchema := {}
  /-- top-level `data.get('default')` (read by `_parse_enum`) -/
  default : Option JVal := none
deriving Inhabited

/-- One value of a body schema's `properties` mapping. -/
structure RawPropertyData where
  type_ : Option String := none
  default : Option JVal := none
  allOf : Option (List String) := none
  ref : Option String := none
deriving Inhabited

/-- A component schema, i.e. a resolvable `$ref` target
(`#/components/schemas/...`). -/
structure RawComponentSchema where
  /-- `'enum' in schema` -/
  hasEnum : Bool := false
  /-- `schema.get('default')` (read by `_parse_query_param`) -/
  default : Option JVal := none
  properties : List (String × RawPropertyData) := []
  /-- the schema's `required` list (`data.get('required', [])` for JSON
  bodies, `data['required']` for form bodies) -/
  required : Option (List String) := none
deriving Inhabited

/-- `requestBody.content[ctype]['schema']`. -/
structure RawMediaSchema where
  type_ : Option String := none
  ref : Option String := none
  /-- `schema['items']['$ref']`, present when the schema is an array -/
  itemsRef : Option String := none
deriving Inhabited

/-- A `requestBody` dict: its `content` mapping in document order, each
media-type entry collapsed to its `schema`. -/
structure RawRequestBody where
  content : List (String × RawMediaSchema)
deriving Inhabited

/-- One method object of a path entry. -/
structure RawMethodData where
  summary : Option String := none
  description : Option String := none
  parameters : List RawParameter := []
  requestBody : Option RawRequestBody := none
deriving Inhabited

/-- The raw OpenAPI document as the parser traverses it: `paths` in
document order, plus the table of resolvable component schemas keyed by
their full reference string.  (`_schema_from_ref`'s generic key-by-key
walk over the untyped document is embedded separately as
`resolve_walk` below for the Reference Resolver claims; here its
reachable targets are tabulated.) -/
structure OpenAPISchema where
  title : String := ""
  paths : List (String × List (String × RawMethodData))
  components : List (String × RawComponentSchema) := []
deriving Inhabited

/-- Look up a component schema by its reference string. -/
def resolveComp (comps : List (String × RawComponentSchema)) (r : String) :
    Option RawComponentSchema :=
  match comps.find? (fun kv => kv.1 = r) with
  | some kv => some kv.2
  | none => none

/-! ## API model (`app/openapi/parts.py`) -/

/-- `Parameter`: a leaf payload item of the API model. -/
structure Parameter where
  name : String
  type_ : String
  placement : Option ParamPlacement := none
  required : Bool
  default : Option JVal := none
deriving Inhabited

/-- `Parameter | NestedObject`: a body payload item (`NestedObject`
holds a name and recursive children). -/
inductive PayloadItem where
  | param (p : Parameter)
  | nested (name : String) (children : List PayloadItem)
deriving Inhabited

/-- `Body`: content type plus payload sequence. -/
structure Body where
  content_type : RequestBodyType
  payload : List PayloadItem := []
deriving Inhabited

/-- `Endpoint`: one HTTP method on one path.  The optional `query`
(`Query | None`, a wrapper around its `parameters` list) is embedded as
the plain list `queryParams`; the parser materializes `Query` only for
a non-empty list, and the coupler reads it back with
`getattr(endpoint.query, 'parameters', [])`, so `None` and the empty
list are observationally equal.  `path` holds
`str(pathlib.Path(path))`. -/
structure Endpoint where
  path : String
  method : HTTPMethod
  queryParams : List Parameter := []
  body : Option Body := none
  description : String
deriving Inhabited

/-- `Path`: a path string and its endpoints. -/
structure APIPath where
  path : String
  endpoints : List Endpoint
deriving Inhabited

/-- `API`: ordered mapping from URL path string to `Path` (Python dict
preserving insertion order). -/
structure API where
  paths : List (String × APIPath)
deriving Inhabited

/-! ## Reference Resolver (`OpenAPIParser._schema_from_ref`) -/

/-- The key-by-key walk of `_schema_from_ref`: the running value starts
at the raw document and each step is `schema = schema.get(part)`.
`schema.get` is only defined when the running value is a dict: on
`None` (a previous key was missing) or on a non-dict value, Python
raises `AttributeError`.  When the loop finishes, the running value —
possibly `None` if the *final* key was missing — is returned. -/
def resolve_walk : Option JVal → List String → Except String (Option JVal)
  | cur, [] => .ok cur
  | some (.obj fs), p :: rest => resolve_walk (pyGet fs p) rest
  | some _, _ :: _ => .error "AttributeError: object has no attribute 'get'"
  | none, _ :: _ => .error "AttributeError: 'NoneType' object has no attribute 'get'"

/-- `pathlib.Path(rel_path.removeprefix('#/')).parts`: strip the
leading `#/` if present, then split into path components. -/
def refParts (r : String) : List String :=
  pathSegs (if strStartsWith r "#/" then String.mk (r.data.drop 2) else r)

/-- `OpenAPIParser._schema_from_ref` over the untyped raw document. -/
def schema_from_ref (raw : List (String × JVal)) (r : String) :
    Except String (Option JVal) :=
  resolve_walk (some (.obj raw)) (refParts r)

/-! ## Schema Parser (`app/openapi/parser.py`) -/

/-- `data.get('summary') or data('description')` in all four method
parsers: when `summary` is missing or falsy, the fallback *calls* the
dict (`data('description')` instead of `data['description']`), raising
`TypeError`. -/
def descriptionOf (d : RawMethodData) : Except String String :=
  match d.summary with
  | some s => if s = "" then .error "TypeError: 'dict' object is not callable" else .ok s
  | none => .error "TypeError: 'dict' object is not callable"

/-- `OpenAPIParser._parse_enum`: builds an enum `Parameter`;
`placement` comes from `data.get('in')` when truthy (an invalid value
raises `ValueError`), `required` from `data.get('required', False)`,
`default` from `data.get('default')`. -/
def parse_enum (name : String) (in_ : Option String) (required : Bool)
    (default : Option JVal) : Except String Parameter :=
  match in_ with
  | some s =>
    if s = "" then .ok { name, type_ := "enum", placement := none, required, default }
    else
      match ParamPlacement.ofValue s with
      | some pl => .ok { name, type_ := "enum", placement := some pl, required, default }
      | none => .error ("ValueError: '" ++ s ++ "' is not a valid ParamPlacement")
  | none => .ok { name, type_ := "enum", placement := none, required, default }

/-- `OpenAPIParser._parse_param_common`: reads `data['name']`,
`data['schema']['type']` and `data['required']` (raising `KeyError`
when `type` or `required` is absent). -/
def parse_param_common (data : RawParameter) : Except String Parameter :=
  match data.schema.type_ with
  | none => .error "KeyError: 'type'"
  | some t =>
    match data.required with
    | none => .error "KeyError: 'required'"
    | some req => .ok { name := data.name, type_ := t, required := req }

/-- `OpenAPIParser._parse_path_param`. -/
def parse_path_param (data : RawParameter) : Except String Parameter :=
  match parse_param_common data with
  | .error e => .error e
  | .ok p => .ok { p with placement := some .PATH }

/-- `OpenAPIParser._parse_header_param`. -/
def parse_header_param (data : RawParameter) : Except String Parameter :=
  match parse_param_common data with
  | .error e => .error e
  | .ok p => .ok { p with placement := some .HEADER }

/-- `OpenAPIParser._parse_query_param`: if the parameter schema is a
bare `$ref`, resolve it; an enum target takes the `_parse_enum` route;
otherwise `schema` is rebound to the resolved dict, so the `default`
is read from the resolved schema while `_parse_param_common` still
reads `type` from the original `data['schema']`. -/
def parse_query_param (comps : List (String × RawComponentSchema))
    (data : RawParameter) : Except String Parameter :=
  match data.schema.ref with
  | some r =>
    match resolveComp comps r with
    | none => .error "TypeError: argument of type 'NoneType' is not iterable"
    | some sch =>
      if sch.hasEnum then
        parse_enum data.name data.in_ (data.required.getD false) data.default
      else
        match parse_param_common data with
        | .error e => .error e
        | .ok p => .ok { p with placement := some .QUERY, default := sch.default }
  | none =>
    match parse_param_common data with
    | .error e => .error e
    | .ok p => .ok { p with placement := some .QUERY, default := data.schema.default }

/-- `OpenAPIParser._parse_parameter`: an `allOf` schema resolving to an
enum is an enum parameter; an `allOf` resolving to a non-enum falls
into a bare `print()` branch after which the unbound local `parameter`
is returned, raising `UnboundLocalError`.  Without `allOf`, dispatch on
`ParamPlacement(data['in'])`. -/
def parse_parameter (comps : List (String × RawComponentSchema))
    (data : RawParameter) : Except String Parameter :=
  match data.schema.allOf with
  | some l =>
    match l.head? with
    | none => .error "IndexError: list index out of range"
    | some r =>
      match resolveComp comps r with
      | none => .error "TypeError: argument of type 'NoneType' is not iterable"
      | some sch =>
        if sch.hasEnum then
          parse_enum data.name data.in_ (data.required.getD false) data.default
        else .error "UnboundLocalError: local variable 'parameter' referenced before assignment"
  | none =>
    match data.in_ with
    | none => .error "KeyError: 'in'"
    | some inV =>
      match ParamPlacement.ofValue inV with
      | none => .error ("ValueError: '" ++ inV ++ "' is not a valid ParamPlacement")
      | some .PATH => parse_path_param data
      | some .QUERY => parse_query_param comps data
      | some .HEADER => parse_header_param data

/-- The property loop of `OpenAPIParser._parse_body_json` over the
current schema's `properties`; `reqd` is the current schema's
`required` list (`data.get('required', [])`).  Cases in source order:
explicit `type` → leaf; `allOf` whose head resolves to an enum schema →
enum leaf; `allOf` resolving to a non-enum schema → recurse and wrap in
a `NestedObject`; the same two cases for a bare `$ref`; a property with
none of `type`/`allOf`/`$ref` falls into a bare `print()` branch and is
*silently skipped*.  `fuel` is a joint recursion/iteration allowance
standing in for CPython's recursion limit: it shrinks by one both per
property step and per nested-schema descent (CPython only limits the
depth, but any run that completes within the source's limits also
completes under a large enough allowance). -/
def parse_json_props (comps : List (String × RawComponentSchema)) :
    Nat → List String → List (String × RawPropertyData) →
    Except String (List PayloadItem)
  | _, _, [] => .ok []
  | 0, _, _ :: _ => .error "RecursionError: maximum recursion depth exceeded"
  | fuel + 1, reqd, (pname, pd) :: rest =>
    let consRest (item? : Option PayloadItem) : Except String (List PayloadItem) :=
      match parse_json_props comps fuel reqd rest with
      | .error e => .error e
      | .ok items =>
        match item? with
        | some it => .ok (it :: items)
        | none => .ok items
    match pd.type_ with
    | some t =>
      consRest (some (.param
        { name := pname, type_ := t, required := reqd.contains pname, default := pd.default }))
    | none =>
      match pd.allOf with
      | some l =>
        match l.head? with
        | none => .error "IndexError: list index out of range"
        | some r =>
          match resolveComp comps r with
          | none => .error "TypeError: argument of type 'NoneType' is not iterable"
          | some schR =>
            if schR.hasEnum then
              match parse_enum pname none false pd.default with
              | .error e => .error e
              | .ok p => consRest (some (.param p))
            else
              match parse_json_props comps fuel (schR.required.getD []) schR.properties with
              | .error e => .error e
              | .ok children => consRest (some (.nested pname children))
      | none =>
        match pd.ref with
        | some r =>
          match resolveComp comps r with
          | none => .error "TypeError: argument of type 'NoneType' is not iterable"
          | some schR =>
            if schR.hasEnum then
              match parse_enum pname none false pd.default with
              | .error e => .error e
              | .ok p => consRest (some (.param p))
            else
              match parse_json_props comps fuel (schR.required.getD []) schR.properties with
              | .error e => .error e
              | .ok children => consRest (some (.nested pname children))
        | none => consRest none

/-- `OpenAPIParser._parse_body_json`. -/
def parse_body_json (comps : List (String × RawComponentSchema)) (fuel : Nat)
    (sch : RawComponentSchema) : Except String Body :=
  match parse_json_props comps fuel (sch.required.getD []) sch.properties with
  | .error e => .error e
  | .ok payload => .ok { content_type := .JSON, payload }

/-- The property loop of `OpenAPIParser._parse_body_form_url_encoded`:
flat leaves only, `type` read with `[...]` and `required` tested
against `data['required']` (both raising `KeyError` when absent, the
latter only once a property is actually processed). -/
def parse_form_props (reqd : Option (List String)) :
    List (String × RawPropertyData) → Except String (List PayloadItem)
  | [] => .ok []
  | (pname, pd) :: rest =>
    match pd.type_ with
    | none => .error "KeyError: 'type'"
    | some t =>
      match reqd with
      | none => .error "KeyError: 'required'"
      | some rl =>
        match parse_form_props reqd rest with
        | .error e => .error e
        | .ok items =>
          .ok (.param { name := pname, type_ := t, required := rl.contains pname } :: items)

/-- `OpenAPIParser._parse_body_form_url_encoded`. -/
def parse_body_form (sch : RawComponentSchema) : Except String Body :=
  match parse_form_props sch.required sch.properties with
  | .error e => .error e
  | .ok payload => .ok { content_type := .FORM_URL_ENCODED, payload }

/-- `OpenAPIParser._parse_body`: the first key of `content` wins; the
body schema is `schema['$ref']`, or `schema['items']['$ref']` when the
schema type is `array`; the resolved schema is handed to the
`_body_parser` for the derived body type.  A `NONE` body type maps to
no parser, after which the unbound local `body` is returned
(`UnboundLocalError`) — unreachable from a string content type. -/
def parse_body (comps : List (String × RawComponentSchema))
    (data : RawRequestBody) : Except String Body :=
  match data.content.head? with
  | none => .error "IndexError: list index out of range"
  | some (ctypeStr, media) =>
    let body_type := RequestBodyType.from_content_type (.pystr ctypeStr)
    let refE : Except String String :=
      if media.type_ = some "array" then
        match media.itemsRef with
        | some r => .ok r
        | none => .error "KeyError: 'items'"
      else
        match media.ref with
        | some r => .ok r
        | none => .error "KeyError: '$ref'"
    match refE with
    | .error e => .error e
    | .ok r =>
      match resolveComp comps r with
      | none => .error "TypeError: 'NoneType' object is not subscriptable"
      | some sch =>
        match body_type with
        | .JSON => parse_body_json comps FUEL sch
        | .FORM_URL_ENCODED => parse_body_form sch
        | .NONE => .error "UnboundLocalError: local variable 'body' referenced before assignment"

/-- `OpenAPIParser._parse_get`: description first (where the
`data('description')` fallback can raise), then the parameters;
GET never reads `requestBody`. -/
def parse_get (comps : List (String × RawComponentSchema)) (path : String)
    (d : RawMethodData) : Except String Endpoint :=
  match descriptionOf d with
  | .error e => .error e
  | .ok desc =>
    match mapE (parse_parameter comps) d.parameters with
    | .error e => .error e
    | .ok params =>
      .ok { path := pathNorm path, method := .GET, queryParams := params,
            body := none, description := desc }

/-- Shared shape of `_parse_post` / `_parse_put` / `_parse_delete`
(textually identical in the source up to the method tag): description,
then parameters, then the optional `requestBody`. -/
def parse_with_body (comps : List (String × RawComponentSchema))
    (method : HTTPMethod) (path : String) (d : RawMethodData) :
    Except String Endpoint :=
  match descriptionOf d with
  | .error e => .error e
  | .ok desc =>
    match mapE (parse_parameter comps) d.parameters with
    | .error e => .error e
    | .ok params =>
      match d.requestBody with
      | none =>
        .ok { path := pathNorm path, method, queryParams := params,
              body := none, description := desc }
      | some rb =>
        match parse_body comps rb with
        | .error e => .error e
        | .ok b =>
          .ok { path := pathNorm path, method, queryParams := params,
                body := some b, description := desc }

/-- `OpenAPIParser._parse_post`. -/
def parse_post (comps : List (String × RawComponentSchema)) (path : String)
    (d : RawMethodData) : Except String Endpoint :=
  parse_with_body comps .POST path d

/-- `OpenAPIParser._parse_put`. -/
def parse_put (comps : List (String × RawComponentSchema)) (path : String)
    (d : RawMethodData) : Except String Endpoint :=
  parse_with_body comps .PUT path d

/-- `OpenAPIParser._parse_delete`. -/
def parse_delete (comps : List (String × RawComponentSchema)) (path : String)
    (d : RawMethodData) : Except String Endpoint :=
  parse_with_body comps .DELETE path d

/-- One method entry of `OpenAPIParser.parse`:
`HTTPMethod(method_name.upper())` (an unknown string raises
`ValueError`), then the `_method_parser` dict lookup, which covers only
GET/POST/PUT/DELETE and raises `KeyError` for the other five stdlib
methods. -/
def parse_method_entry (comps : List (String × RawComponentSchema))
    (path : String) (mname : String) (md : RawMethodData) :
    Except String Endpoint :=
  match HTTPMethod.ofValue (pyUpper mname) with
  | none => .error ("ValueError: '" ++ pyUpper mname ++ "' is not a valid HTTPMethod")
  | some .GET => parse_get comps path md
  | some .POST => parse_post comps path md
  | some .PUT => parse_put comps path md
  | some .DELETE => parse_delete comps path md
  | some m => .error ("KeyError: HTTPMethod." ++ m.name)

/-- The path rebinding at the top of `OpenAPIParser.parse`'s loop:
`if '{' in path: path = self.dup_fig_par(path)`. -/
def transformPath (p : String) : String :=
  if strHasChar p '\x7b' then dup_fig_par p else p

/-- One path entry of `OpenAPIParser.parse`: a path containing `{` is
rewritten by `dup_fig_par` *before* anything else, and that rewritten
string becomes both the dict key of `API.paths` and the path handed to
every method parser. -/
def parse_path_entry (comps : List (String × RawComponentSchema))
    (entry : String × List (String × RawMethodData)) :
    Except String (String × APIPath) :=
  match mapE (fun me => parse_method_entry comps (transformPath entry.1) me.1 me.2) entry.2 with
  | .error e => .error e
  | .ok eps =>
    .ok (transformPath entry.1,
         { path := pathNorm (transformPath entry.1), endpoints := eps })

/-- `OpenAPIParser.parse`. -/
def parse (s : OpenAPISchema) : Except String API :=
  match mapE (parse_path_entry s.components) s.paths with
  | .error e => .error e
  | .ok entries => .ok { paths := entries }

/-- Total number of (path, method) entries of a raw schema. -/
def totalEntries (s : OpenAPISchema) : Nat :=
  (s.paths.map (fun pm => pm.2.length)).sum

/-! ## Target Collection Model and Block Serializer (`app/bruno/parts.py`) -/

/-- `EndpointType`. -/
inductive EndpointType where
  | HTTP
  | GRAPHQL
deriving Repr, DecidableEq, Inhabited

/-- `.value` of an `EndpointType` member. -/
def EndpointType.value : EndpointType → String
  | .HTTP => "http"
  | .GRAPHQL => "graphql"

/-- `EndpointMeta`. -/
structure EndpointMeta where
  endpoint_name : String
  endpoint_type : EndpointType
  sequence : Nat
deriving Repr, DecidableEq, Inhabited

/-- `EndpointMeta.to_bru`. -/
def EndpointMeta.to_bru (m : EndpointMeta) : String :=
  joinSep "\n"
    ["meta \x7b",
     "  name: " ++ m.endpoint_name,
     "  type: " ++ m.endpoint_type.value,
     "  seq: " ++ toString m.sequence,
     "\x7d"]

/-- `EndpointConfig` as the coupler constructs it: `http_method` and
`url` are always provided (`url` stores `str()` of the endpoint's
`pathlib.Path`), `auth_type` is never provided and stays `None`, so its
rendered form is the fixed text `None`
(`getattr(self.auth_type, "value", None)`). -/
structure EndpointConfig where
  http_method : HTTPMethod
  url : String
  body_type : Option RequestBodyType
deriving Repr, DecidableEq, Inhabited

/-- `getattr(self.body_type, "value", None)` as the f-string renders
it: the member's `.value`, or the text `None` when absent. -/
def bodyTypeValue (bt : Option RequestBodyType) : String :=
  match bt with
  | some b => b.value
  | none => "None"

/-- `EndpointConfig.to_bru`: note `\x7b\x7bhost\x7d\x7d` is the literal
text `{{host}}` produced by the doubled braces of the f-string, and
`getattr(self.body_type, "value", None)` renders as the member's
`.value` or the text `None`. -/
def EndpointConfig.to_bru (c : EndpointConfig) : String :=
  joinSep "\n"
    [c.http_method.lower ++ " \x7b",
     "  url: \x7b\x7bhost\x7d\x7d" ++ c.url ++ "/",
     "  body: " ++ bodyTypeValue c.body_type,
     "  auth: None",
     "\x7d"]

/-- `RequestHeaders`: a pydantic model whose `content_type` field is
annotated `str | None` — pydantic validates the value and accepts only
a `str` or `None`, so a successfully constructed instance holds an
optional string.  (The coupler in fact passes a `RequestBodyType` enum
member whenever a body exists; that value is *rejected* by the
validator — see `couple_headers` — so it can never be stored here.) -/
structure RequestHeaders where
  content_type : Option String
deriving Repr, DecidableEq, Inhabited

/-- The `pydantic.ValidationError` raised by
`RequestHeaders(content_type=<RequestBodyType member>)`: the enum
member is not a `str` (pydantic v1's str validator coerces only
int/float/Decimal/bytes) and not `None`. -/
def headersValidationError : String :=
  "ValidationError: 1 validation error for RequestHeaders: content_type: str type expected"

/-- `RequestHeaders.to_bru`: a falsy (`None` or empty) content type
yields no block. -/
def RequestHeaders.to_bru (h : RequestHeaders) : String :=
  match h.content_type with
  | none => ""
  | some ct =>
    if ct = "" then ""
    else joinSep "\n" ["headers \x7b", "  Content-Type: " ++ ct, "\x7d"]

/-- `RequestPayloadItem` (also its identical-behaviour subclasses
`QueryParameter`, `BodyProperty`, `EndpointVar`). -/
structure RequestPayloadItem where
  name : String
  default_value : Option JVal := none
  required : Bool := false
  selected : Bool := false
  placement : Option ParamPlacement := none
  item_type : Option String := none
deriving Inhabited

/-- `RequestPayloadItem.to_bru`:
`f"{sel}{self.name}: {self.default_value or ''}"` — the disabling
marker `~` appears exactly when `selected` is false, and a falsy
default (Python `None`, `0`, `''`, `False`, empty containers) renders
as the empty string. -/
def RequestPayloadItem.to_bru (it : RequestPayloadItem) : String :=
  (if it.selected then "" else "~") ++ it.name ++ ": " ++
    (match it.default_value with
     | some v => if v.truthy then pyShow FUEL v else ""
     | none => "")

/-- `BodyProperty | RequestNestedItem`: the recursive body-payload
tree of the target model. -/
inductive BruProp where
  | prop (item : RequestPayloadItem)
  | nested (name : String) (items : List BruProp)
deriving Inhabited

/-- The `name` of a body prop (leaf name or nested-item name). -/
def BruProp.name : BruProp → String
  | .prop it => it.name
  | .nested n _ => n

mutual

/-- `RequestBody._prop_to_bru`: a leaf contributes its raw
`default_value` (Python `None` → JSON `null`), a nested item
contributes the dict of its children. -/
def propToJVal : BruProp → JVal
  | .prop it =>
    match it.default_value with
    | some v => v
    | none => .null
  | .nested _ items => .obj (propsToJVal items)

/-- Children of a nested item, as (name, value) pairs in order. -/
def propsToJVal : List BruProp → List (String × JVal)
  | [] => []
  | p :: t => (p.name, propToJVal p) :: propsToJVal t

end

/-- `RequestBody` as the coupler constructs it: `body_type` is always
provided; `props` is the coupled payload; `json_data` is never set by
the live pipeline (`None`), and both `None` and `{}` are falsy in the
emptiness test, so it is embedded as a possibly-empty field list. -/
structure RequestBody where
  body_type : RequestBodyType
  props : List BruProp := []
  json_data : List (String × JVal) := []
deriving Inhabited

/-- `RequestBody._props_to_bru`: for a JSON body, build the
name→value stub from `props` and return the `json.dumps(..., indent=2)`
text with every line indented two spaces, as a single element; for any
other body type, one line per prop via `to_bru` — which only exists on
leaf items: a `RequestNestedItem` there raises `AttributeError`. -/
def props_to_bru (b : RequestBody) : Except String (List String) :=
  if b.body_type = RequestBodyType.JSON then
    let stub : JVal := .obj (propsToJVal b.props)
    .ok [joinSep "\n" ((splitChar '\n' (jsonDumps FUEL 0 stub)).map (fun ln => "  " ++ ln))]
  else
    mapE
      (fun p =>
        match p with
        | .prop it => .ok ("  " ++ it.to_bru)
        | .nested _ _ =>
          .error "AttributeError: 'RequestNestedItem' object has no attribute 'to_bru'")
      b.props

/-- `RequestBody.to_bru`: no text when both `props` and `json_data`
are falsy, else the `body:<kind>` block. -/
def RequestBody.to_bru (b : RequestBody) : Except String String :=
  if b.props.isEmpty && b.json_data.isEmpty then .ok ""
  else
    match props_to_bru b with
    | .error e => .error e
    | .ok lines =>
      .ok (joinSep "\n"
        (["body:" ++ b.body_type.body_block_type ++ " \x7b"] ++ lines ++ ["\x7d"]))

/-- `EndpointVars`. -/
structure EndpointVars where
  pre_request : List RequestPayloadItem := []
  post_request : List RequestPayloadItem := []
deriving Inhabited

/-- `EndpointVars.to_bru`: emits a `vars:pre-request` sub-block and a
`vars:post-request` sub-block, each only when non-empty, joined by a
single newline. -/
def EndpointVars.to_bru (v : EndpointVars) : String :=
  joinSep "\n"
    ((if v.pre_request.isEmpty then []
      else [joinSep "\n"
        (["vars:pre-request \x7b"] ++
         v.pre_request.map (fun p => "  " ++ p.to_bru) ++ ["\x7d"])]) ++
     (if v.post_request.isEmpty then []
      else [joinSep "\n"
        (["vars:post-request \x7b"] ++
         v.post_request.map (fun p => "  " ++ p.to_bru) ++ ["\x7d"])]))

/-- `RequestQuery`. -/
structure RequestQuery where
  params : List RequestPayloadItem := []
deriving Inhabited

/-- `RequestQuery.to_bru`. -/
def RequestQuery.to_bru (q : RequestQuery) : String :=
  if q.params.isEmpty then ""
  else
    joinSep "\n"
      (["query \x7b"] ++ q.params.map (fun p => "  " ++ p.to_bru) ++ ["\x7d"])

/-- `EndpointDocs`; a `None` description and an empty one are both
falsy, so the field is embedded as a string with `""` for absent. -/
structure EndpointDocs where
  description : String := ""
deriving Repr, DecidableEq, Inhabited

/-- `EndpointDocs.to_bru`. -/
def EndpointDocs.to_bru (d : EndpointDocs) : String :=
  if d.description = "" then ""
  else joinSep "\n" ["docs \x7b", "  " ++ d.description, "\x7d"]

/-- `BrunoEndpoint`: the target collection model of one request file.
The coupler always constructs all seven parts, so they are mandatory
here (`if part and part.to_bru()` then filters only on the rendered
text). -/
structure BrunoEndpoint where
  meta : EndpointMeta
  config : EndpointConfig
  headers : RequestHeaders
  body : RequestBody
  query : RequestQuery
  vars : EndpointVars
  docs : EndpointDocs
deriving Inhabited

/-- The block texts of `BrunoEndpoint._blocks_order`, in its fixed
order meta, config, headers, query, body, vars, docs; the body block is
the one serializer that can raise. -/
def BrunoEndpoint.blockTexts (e : BrunoEndpoint) : Except String (List String) :=
  match e.body.to_bru with
  | .error err => .error err
  | .ok bodyTxt =>
    .ok [e.meta.to_bru, e.config.to_bru, e.headers.to_bru, e.query.to_bru,
         bodyTxt, e.vars.to_bru, e.docs.to_bru]

/-- `BrunoEndpoint.to_bru`: keep the non-empty block texts in the fixed
order, join them with a blank line, and append the final newline. -/
def BrunoEndpoint.to_bru (e : BrunoEndpoint) : Except String String :=
  match e.blockTexts with
  | .error err => .error err
  | .ok ts => .ok (joinSep "\n\n" (ts.filter (fun s => s ≠ "")) ++ "\n")

/-! ## Model Coupler (`app/openapi/coupler.py`) -/

/-- `getattr(endpoint.body, 'content_type', None)`
(`OpenAPICoupler._get_body_content_type`). -/
def get_body_content_type (e : Endpoint) : Option RequestBodyType :=
  e.body.map (fun b => b.content_type)

/-- `OpenAPICoupler._get_request_body_type`: feeds the *enum member*
(or `None`) back into `from_content_type`. -/
def get_request_body_type (e : Endpoint) : RequestBodyType :=
  RequestBodyType.from_content_type
    (match get_body_content_type e with
     | none => .pynone
     | some c => .pyenum c)

/-- Coupling one API-model `Parameter` (the leaf case of
`OpenAPICoupler._couple_payload_item`): `_get_param_class` maps a
`HEADER` placement to the empty string `''`, and calling it
(`param_class(...)`) raises `TypeError`; the three other placements map
to behaviourally identical `RequestPayloadItem` subclasses.  `selected`
is set to `required`. -/
def couple_param (item : Parameter) : Except String RequestPayloadItem :=
  match item.placement with
  | some .HEADER => .error "TypeError: 'str' object is not callable"
  | _ =>
    .ok { name := item.name, default_value := item.default,
          required := item.required, selected := item.required,
          placement := item.placement, item_type := some item.type_ }

mutual

/-- `OpenAPICoupler._couple_payload_item`: nested objects recurse over
their children; leaves go through `couple_param`. -/
def couple_payload_item : PayloadItem → Except String BruProp
  | .param p =>
    match couple_param p with
    | .error e => .error e
    | .ok it => .ok (.prop it)
  | .nested n cs =>
    match couple_payload_items cs with
    | .error e => .error e
    | .ok items => .ok (.nested n items)

/-- Sequential coupling of a payload list (first error aborts). -/
def couple_payload_items : List PayloadItem → Except String (List BruProp)
  | [] => .ok []
  | p :: t =>
    match couple_payload_item p with
    | .error e => .error e
    | .ok b =>
      match couple_payload_items t with
      | .error e => .error e
      | .ok bs => .ok (b :: bs)

end

/-- `OpenAPICoupler._couple_meta`: name from the path's final segment
(`path.stem`), type HTTP, and the shared running sequence number. -/
def couple_meta (seq : Nat) (e : Endpoint) : EndpointMeta :=
  { endpoint_name := pathStem e.path, endpoint_type := .HTTP, sequence := seq }

/-- `OpenAPICoupler._couple_config`. -/
def couple_config (e : Endpoint) : EndpointConfig :=
  { http_method := e.method, url := e.path,
    body_type := get_body_content_type e }

/-- `OpenAPICoupler._couple_headers`: constructs
`RequestHeaders(content_type=self._get_body_content_type(endpoint))`.
For a body-less endpoint the value is `None` and validation passes;
for a bodied endpoint the value is a `RequestBodyType` enum member,
which pydantic rejects for the `str | None` field, raising
`ValidationError`. -/
def couple_headers (e : Endpoint) : Except String RequestHeaders :=
  match get_body_content_type e with
  | none => .ok { content_type := none }
  | some _ => .error headersValidationError

/-- `OpenAPICoupler._couple_body_json`:
`getattr(endpoint.body, 'payload', [])` coupled item-wise. -/
def couple_body_json (e : Endpoint) : Except String (List BruProp) :=
  couple_payload_items (match e.body with | some b => b.payload | none => [])

/-- `OpenAPICoupler._couple_body`: `match` on the computed body type.
Only `RequestBodyType.JSON` is matched; the `case None` pattern can
never match, because `from_content_type` always returns an enum member
(`RequestBodyType.NONE` for a body-less endpoint) and Python's `None`
pattern matches only the `None` singleton — so every non-JSON body
type falls through to
`raise ValueError(f'Unsupported body type: ...')`. -/
def couple_body (e : Endpoint) : Except String RequestBody :=
  match get_request_body_type e with
  | .JSON =>
    match couple_body_json e with
    | .error err => .error err
    | .ok props => .ok { body_type := .JSON, props := props, json_data := [] }
  | bt => .error ("ValueError: Unsupported body type: " ++ bt.pyStr)

/-- `OpenAPICoupler._couple_query`: keeps exactly the parameters whose
`placement is ParamPlacement.QUERY`. -/
def couple_query (e : Endpoint) : Except String RequestQuery :=
  match mapE couple_param
      (e.queryParams.filter (fun p => p.placement = some ParamPlacement.QUERY)) with
  | .error err => .error err
  | .ok ps => .ok { params := ps }

/-- `OpenAPICoupler._couple_vars`: pre-request vars are exactly the
parameters whose `placement is ParamPlacement.PATH`; post-request vars
are never populated. -/
def couple_vars (e : Endpoint) : Except String EndpointVars :=
  match mapE couple_param
      (e.queryParams.filter (fun p => p.placement = some ParamPlacement.PATH)) with
  | .error err => .error err
  | .ok ps => .ok { pre_request := ps, post_request := [] }

/-- `OpenAPICoupler._couple_docs`. -/
def couple_docs (e : Endpoint) : EndpointDocs :=
  { description := e.description }

/-- `OpenAPICoupler._couple_endpoint`: the keyword arguments of
`BrunoEndpoint(...)` are evaluated in source order meta, config,
headers, body, query, vars, docs.  The first fallible step is
`_couple_headers` (its `ValidationError` for bodied endpoints surfaces
before the body is coupled), then `_couple_body`, then query and
vars. -/
def couple_endpoint (seq : Nat) (e : Endpoint) : Except String BrunoEndpoint :=
  match couple_headers e with
  | .error err => .error err
  | .ok headers =>
    match couple_body e with
    | .error err => .error err
    | .ok body =>
      match couple_query e with
      | .error err => .error err
      | .ok query =>
        match couple_vars e with
        | .error err => .error err
        | .ok vs =>
          .ok { meta := couple_meta seq e, config := couple_config e,
                headers := headers, body := body, query := query,
                vars := vs, docs := couple_docs e }

/-- Removing the header-placed parameters from an endpoint.  Used to
express that coupling never reacts to them: `couple_endpoint` gives
the same result on `e` and on `dropHeaderParams e`. -/
def dropHeaderParams (e : Endpoint) : Endpoint :=
  { e with queryParams :=
      e.queryParams.filter (fun p => p.placement ≠ some ParamPlacement.HEADER) }

/-- The endpoint loop of `OpenAPICoupler.couple`: the shared
`_sequence_number` counter is incremented once per endpoint *before*
coupling; each endpoint's rendered document is written before the next
endpoint is processed, so documents produced before a failure survive
it.  Returns the rendered documents in order plus the first error, if
any. -/
def couple_endpoints (seq : Nat) : List Endpoint → List String × Option String
  | [] => ([], none)
  | e :: rest =>
    match couple_endpoint (seq + 1) e with
    | .error err => ([], some err)
    | .ok bru =>
      match bru.to_bru with
      | .error err => ([], some err)
      | .ok doc =>
        let r := couple_endpoints (seq + 1) rest
        (doc :: r.1, r.2)

/-- `OpenAPICoupler.couple`: iterate the API's paths in insertion
order, and each path's endpoints in order, with the single sequence
counter threaded across all of them (never reset per path). -/
def couple (api : API) : List String × Option String :=
  couple_endpoints 0 (api.paths.flatMap (fun kv => kv.2.endpoints))

/-- The full pipeline on a raw schema: parse, then couple. -/
def pipeline (s : OpenAPISchema) : Except String (List String × Option String) :=
  match parse s with
  | .error e => .error e
  | .ok api => .ok (couple api)

/-! ## Concrete input schemas and models used by the claim theorems -/

/-- A minimal valid schema: one path, one GET endpoint, no parameters,
no request body. -/
def schemaOneGet : OpenAPISchema :=
  { paths := [("/items", [("get", { summary := some "List items" })])] }

/-- A JSON body schema with a well-formed property `ok` and a property
`weird` that has none of `type` / `allOf` / `$ref`. -/
def jsonSchemaWithWeirdProp : RawComponentSchema :=
  { properties := [("ok", { type_ := some "string" }), ("weird", {})],
    required := some ["ok"] }

/-- The form-urlencoded body schema `{name: string, age: integer}`,
both required. -/
def formBodySchema : RawComponentSchema :=
  { properties := [("name", { type_ := some "string" }),
                   ("age", { type_ := some "integer" })],
    required := some ["name", "age"] }

/-- A POST endpoint whose `requestBody` declares content type
`application/x-www-form-urlencoded` over `formBodySchema`. -/
def schemaFormPost : OpenAPISchema :=
  { paths := [("/items", [("post",
      { summary := some "Create item",
        requestBody := some { content :=
          [("application/x-www-form-urlencoded",
            { ref := some "#/components/schemas/FormBody" })] } })])],
    components := [("#/components/schemas/FormBody", formBodySchema)] }

/-- A schema whose single path contains a `{id}` placeholder. -/
def schemaPlaceholderPath : OpenAPISchema :=
  { paths := [("/items/\x7bid\x7d", [("get", { summary := some "Get item" })])] }

/-- A schema with an OPTIONS method entry. -/
def schemaWithOptions : OpenAPISchema :=
  { paths := [("/items", [("options", { summary := some "Opts" })])] }

/-- A GET endpoint with a required query parameter `id` (string, no
default) and an optional query parameter `limit` (integer, default
10). -/
def schemaQueryParams : OpenAPISchema :=
  { paths := [("/items", [("get",
      { summary := some "List items filtered",
        parameters :=
          [{ name := "id", in_ := some "query", required := some true,
             schema := { type_ := some "string" } },
           { name := "limit", in_ := some "query", required := some false,
             schema := { type_ := some "integer", default := some (.i 10) } }] })])] }

/-- A schema whose single endpoint carries only a `description`, no
`summary`. -/
def schemaDescriptionOnly : OpenAPISchema :=
  { paths := [("/items", [("get", { description := some "Only description" })])] }

/-- An API-model endpoint with a header-placed parameter and a JSON
body (so that everything except the header parameter couples
cleanly). -/
def endpointWithHeaderParam : Endpoint :=
  { path := "/things", method := .POST,
    queryParams := [{ name := "X-Token", type_ := "string",
                      placement := some .HEADER, required := true }],
    body := some { content_type := .JSON,
                   payload := [.param { name := "flag", type_ := "boolean",
                                        required := true }] },
    description := "Create thing" }

/-- The endpoint `parse` produces for `schemaFormPost`. -/
def formPostEndpoint : Endpoint :=
  { path := "/items", method := .POST, queryParams := [],
    body := some
      { content_type := .FORM_URL_ENCODED,
        payload := [.param { name := "name", type_ := "string", required := true },
                    .param { name := "age", type_ := "integer", required := true }] },
    description := "Create item" }

/-- The API model `parse` produces for `schemaFormPost`. -/
def apiFormPost : API :=
  { paths := [("/items", { path := "/items", endpoints := [formPostEndpoint] })] }

/-- The API model `parse` produces for `schemaPlaceholderPath`: note
the doubled braces. -/
def apiPlaceholder : API :=
  { paths := [("/items/\x7b\x7bid\x7d\x7d",
      { path := "/items/\x7b\x7bid\x7d\x7d",
        endpoints := [{ path := "/items/\x7b\x7bid\x7d\x7d", method := .GET,
                        description := "Get item" }] })] }

/-- The endpoint `parse` produces for `schemaQueryParams`. -/
def endpointItemsGet : Endpoint :=
  { path := "/items", method := .GET,
    queryParams :=
      [{ name := "id", type_ := "string", placement := some .QUERY,
         required := true },
       { name := "limit", type_ := "integer", placement := some .QUERY,
         required := false, default := some (.i 10) }],
    description := "List items filtered" }

/-- The API model `parse` produces for `schemaQueryParams`. -/
def apiQueryParams : API :=
  { paths := [("/items", { path := "/items", endpoints := [endpointItemsGet] })] }

/-- The endpoint `parse_get` produces for the method data of
`schemaOneGet`. -/
def epOneGet : Endpoint :=
  { path := "/items", method := .GET, description := "List items" }

/-- The API-model `limit` query parameter (optional, default 10). -/
def limitParamModel : Parameter :=
  { name := "limit", type_ := "integer", placement := some .QUERY,
    required := false, default := some (.i 10) }

/-- The coupled payload item of `limitParamModel`. -/
def limitItemModel : RequestPayloadItem :=
  { name := "limit", default_value := some (.i 10), required := false,
    selected := false, placement := some .QUERY, item_type := some "integer" }

/-- A well-formed emitted block text: non-empty, not starting with a
newline, and ending in the literal closing-brace line — so that joining
block texts with a double newline separates them by exactly one blank
line, and appending the final newline yields exactly one trailing
newline. -/
def goodBlock (s : String) : Prop :=
  s.data ≠ [] ∧ s.data.head? ≠ some '\n' ∧ s.data.getLast? = some '\x7d'

/-- The seven block texts of a `BrunoEndpoint` in the fixed
`_blocks_order`, given the (already rendered) body block text. -/
def bruBlockList (e : BrunoEndpoint) (bodyTxt : String) : List String :=
  [e.meta.to_bru, e.config.to_bru, e.headers.to_bru, e.query.to_bru,
   bodyTxt, e.vars.to_bru, e.docs.to_bru]

/-- A minimal target model: GET with no headers, no query, an empty
JSON body, no vars and no docs — only meta and config emit text. -/
def simpleBru : BrunoEndpoint :=
  { meta := { endpoint_name := "a", endpoint_type := .HTTP, sequence := 1 },
    config := { http_method := .GET, url := "/a", body_type := none },
    headers := { content_type := none },
    body := { body_type := .JSON },
    query := {}, vars := {}, docs := {} }

/-- The document rendered from `simpleBru`. -/
def simpleBruDoc : String :=
  "meta \x7b\n  name: a\n  type: http\n  seq: 1\n\x7d\n\n" ++
  "get \x7b\n  url: \x7b\x7bhost\x7d\x7d/a/\n  body: None\n  auth: None\n\x7d\n"

/-! ## General lemmas about the embedded operations -/

/-- Membership inversion for a successful `mapE` traversal. -/
theorem mapE_ok_mem {α β : Type} (f : α → Except String β) :
    ∀ (l : List α) (r : List β), mapE f l = .ok r → ∀ a ∈ l, ∃ b, f a = .ok b := by
  intro l
  induction l with
  | nil => intro r _ a ha; cases ha
  | cons x t ih =>
    intro r hr a ha
    unfold mapE at hr
    cases hfx : f x with
    | error e => rw [hfx] at hr; exact Except.noConfusion hr
    | ok b =>
      rw [hfx] at hr
      cases hmt : mapE f t with
      | error e => rw [hmt] at hr; exact Except.noConfusion hr
      | ok bs =>
        rw [hmt] at hr
        cases ha with
        | head => exact ⟨b, hfx⟩
        | tail _ ha2 => exact ih bs hmt a ha2

/-- A successful `mapE` pushes a per-element projection equality
through to the result list. -/
theorem mapE_ok_map {α β γ : Type} (f : α → Except String β) (g : β → γ) (h : α → γ)
    (hfg : ∀ a b, f a = .ok b → g b = h a) :
    ∀ (l : List α) (r : List β), mapE f l = .ok r → r.map g = l.map h := by
  intro l
  induction l with
  | nil =>
    intro r hr
    unfold mapE at hr
    injection hr with hr2
    rw [← hr2]; rfl
  | cons x t ih =>
    intro r hr
    unfold mapE at hr
    cases hfx : f x with
    | error e => rw [hfx] at hr; exact Except.noConfusion hr
    | ok b =>
      rw [hfx] at hr
      cases hmt : mapE f t with
      | error e => rw [hmt] at hr; exact Except.noConfusion hr
      | ok bs =>
        rw [hmt] at hr
        injection hr with hr2
        rw [← hr2]
        simp [List.map, hfg x b hfx, ih bs hmt]

/-- A `mapE` traversal whose elements all succeed succeeds, preserving
length. -/
theorem mapE_ok_of_forall {α β : Type} (f : α → Except String β) :
    ∀ (l : List α), (∀ a ∈ l, ∃ b, f a = .ok b) →
      ∃ r, mapE f l = .ok r ∧ r.length = l.length := by
  intro l
  induction l with
  | nil => intro _; exact ⟨[], rfl, rfl⟩
  | cons x t ih =>
    intro hall
    obtain ⟨b, hb⟩ := hall x (List.mem_cons_self x t)
    obtain ⟨bs, hbs, hlen⟩ := ih (fun a ha => hall a (List.mem_cons_of_mem x ha))
    refine ⟨b :: bs, ?_, ?_⟩
    · unfold mapE; rw [hb, hbs]
    · simp [hlen]

/-- A successful `parse_path_entry` keys its result by the transformed
path string. -/
theorem parse_path_entry_ok_fst (comps : List (String × RawComponentSchema))
    (entry : String × List (String × RawMethodData)) (pr : String × APIPath)
    (h : parse_path_entry comps entry = .ok pr) : pr.1 = transformPath entry.1 := by
  unfold parse_path_entry at h
  cases hm : mapE (fun me => parse_method_entry comps (transformPath entry.1) me.1 me.2) entry.2 with
  | error e => rw [hm] at h; exact Except.noConfusion h
  | ok eps => rw [hm] at h; injection h with h2; rw [← h2]

/-- A successful `parse` gives, for every raw method entry, a
successful `parse_method_entry` on the transformed path. -/
theorem parse_ok_method_entries {s : OpenAPISchema} {api : API}
    (h : parse s = .ok api) :
    ∀ pm ∈ s.paths, ∀ me ∈ pm.2, ∃ ep,
      parse_method_entry s.components (transformPath pm.1) me.1 me.2 = .ok ep := by
  intro pm hpm me hme
  unfold parse at h
  cases hm : mapE (parse_path_entry s.components) s.paths with
  | error e => rw [hm] at h; exact Except.noConfusion h
  | ok entries =>
    obtain ⟨pr, hpr⟩ := mapE_ok_mem _ _ _ hm pm hpm
    unfold parse_path_entry at hpr
    cases hm2 : mapE (fun me => parse_method_entry s.components (transformPath pm.1) me.1 me.2) pm.2 with
    | error e => rw [hm2] at hpr; exact Except.noConfusion hpr
    | ok eps => exact mapE_ok_mem _ _ _ hm2 me hme

/-- A successful `parse_method_entry` means the method resolved to one
of the four supported `HTTPMethod` members. -/
theorem parse_method_entry_ok_method (comps : List (String × RawComponentSchema))
    (path mn : String) (md : RawMethodData) (ep : Endpoint)
    (h : parse_method_entry comps path mn md = .ok ep) :
    ∃ m, HTTPMethod.ofValue (pyUpper mn) = some m ∧
      m ∈ [HTTPMethod.GET, HTTPMethod.POST, HTTPMethod.PUT, HTTPMethod.DELETE] := by
  unfold parse_method_entry at h
  cases ho : HTTPMethod.ofValue (pyUpper mn) with
  | none => rw [ho] at h; exact Except.noConfusion h
  | some m =>
    rw [ho] at h
    cases m with
    | GET => exact ⟨_, rfl, by simp⟩
    | POST => exact ⟨_, rfl, by simp⟩
    | PUT => exact ⟨_, rfl, by simp⟩
    | DELETE => exact ⟨_, rfl, by simp⟩
    | HEAD => exact Except.noConfusion h
    | CONNECT => exact Except.noConfusion h
    | OPTIONS => exact Except.noConfusion h
    | TRACE => exact Except.noConfusion h
    | PATCH => exact Except.noConfusion h

/-- Inversion of a successful `descriptionOf`: the raw `summary` was
present and truthy. -/
theorem descriptionOf_ok (d : RawMethodData) (t : String)
    (h : descriptionOf d = .ok t) : d.summary = some t ∧ t ≠ "" := by
  cases hs : d.summary with
  | none => simp [descriptionOf, hs] at h
  | some s =>
    by_cases he : s = ""
    · simp [descriptionOf, hs, he] at h
    · simp [descriptionOf, hs, he] at h
      subst h
      exact ⟨rfl, he⟩

/-- A successful `parse_get` takes its description from
`descriptionOf`. -/
theorem parse_get_ok_desc (comps : List (String × RawComponentSchema))
    (path : String) (md : RawMethodData) (ep : Endpoint)
    (h : parse_get comps path md = .ok ep) :
    descriptionOf md = .ok ep.description := by
  cases hd : descriptionOf md with
  | error e => simp [parse_get, hd] at h
  | ok desc =>
    cases hm : mapE (parse_parameter comps) md.parameters with
    | error e => simp [parse_get, hd, hm] at h
    | ok params =>
      simp [parse_get, hd, hm] at h
      rw [← h]

/-- A successful `parse_with_body` takes its description from
`descriptionOf`. -/
theorem parse_with_body_ok_desc (comps : List (String × RawComponentSchema))
    (m : HTTPMethod) (path : String) (md : RawMethodData) (ep : Endpoint)
    (h : parse_with_body comps m path md = .ok ep) :
    descriptionOf md = .ok ep.description := by
  cases hd : descriptionOf md with
  | error e => simp [parse_with_body, hd] at h
  | ok desc =>
    cases hm : mapE (parse_parameter comps) md.parameters with
    | error e => simp [parse_with_body, hd, hm] at h
    | ok params =>
      cases hrb : md.requestBody with
      | none =>
        simp [parse_with_body, hd, hm, hrb] at h
        rw [← h]
      | some rb =>
        cases hb : parse_body comps rb with
        | error e => simp [parse_with_body, hd, hm, hrb, hb] at h
        | ok b =>
          simp [parse_with_body, hd, hm, hrb, hb] at h
          rw [← h]

/-- A successful `parse_method_entry` takes its description from
`descriptionOf`. -/
theorem parse_method_entry_ok_desc (comps : List (String × RawComponentSchema))
    (path mn : String) (md : RawMethodData) (ep : Endpoint)
    (h : parse_method_entry comps path mn md = .ok ep) :
    descriptionOf md = .ok ep.description := by
  unfold parse_method_entry at h
  cases ho : HTTPMethod.ofValue (pyUpper mn) with
  | none => rw [ho] at h; exact Except.noConfusion h
  | some m =>
    rw [ho] at h
    cases m with
    | GET => exact parse_get_ok_desc _ _ _ _ h
    | POST => exact parse_with_body_ok_desc _ _ _ _ _ h
    | PUT => exact parse_with_body_ok_desc _ _ _ _ _ h
    | DELETE => exact parse_with_body_ok_desc _ _ _ _ _ h
    | HEAD => exact Except.noConfusion h
    | CONNECT => exact Except.noConfusion h
    | OPTIONS => exact Except.noConfusion h
    | TRACE => exact Except.noConfusion h
    | PATCH => exact Except.noConfusion h

/-- Coupling a parameter that is not header-placed always succeeds,
with `selected` set to `required`. -/
theorem couple_param_ok_of_ne_header (p : Parameter)
    (hp : p.placement ≠ some ParamPlacement.HEADER) :
    couple_param p =
      .ok { name := p.name, default_value := p.default, required := p.required,
            selected := p.required, placement := p.placement,
            item_type := some p.type_ } := by
  unfold couple_param
  cases hpl : p.placement with
  | none => rfl
  | some pl =>
    cases pl with
    | PATH => rfl
    | QUERY => rfl
    | HEADER => exact absurd hpl hp

/-- Sequencing `resolve_walk` over an appended key list. -/
theorem resolve_walk_append (ps qs : List String) :
    ∀ st, resolve_walk st (ps ++ qs) =
      match resolve_walk st ps with
      | .ok st' => resolve_walk st' qs
      | .error e => .error e := by
  induction ps with
  | nil =>
    intro st
    cases st with
    | none => rfl
    | some v => cases v <;> rfl
  | cons p t ih =>
    intro st
    cases st with
    | none => rfl
    | some v =>
      cases v with
      | obj fs => exact ih (pyGet fs p)
      | s v => rfl
      | i v => rfl
      | b v => rfl
      | null => rfl
      | arr vs => rfl

/-- A list whose `head?` is `some` is non-empty. -/
theorem data_ne_nil_of_head {s : String} {c : Char}
    (h : s.data.head? = some c) : s.data ≠ [] := by
  intro hn
  rw [hn] at h
  exact Option.noConfusion h

/-- The head character survives appending on the right. -/
theorem strHead_append (a b : String) (c : Char) (h : a.data.head? = some c) :
    (a ++ b).data.head? = some c := by
  rw [String.data_append, List.head?_append_of_ne_nil _ (data_ne_nil_of_head h)]
  exact h

/-- The last character survives appending on the left. -/
theorem strLast_append (a b : String) (c : Char) (h : b.data.getLast? = some c) :
    (a ++ b).data.getLast? = some c := by
  rw [String.data_append, List.getLast?_append_of_ne_nil _ ?_]
  · exact h
  · intro hn
    rw [hn] at h
    exact Option.noConfusion h

/-- `joinSep` starts with the head of its first element. -/
theorem joinSep_head (sep x : String) (l : List String) (c : Char)
    (h : x.data.head? = some c) :
    (joinSep sep (x :: l)).data.head? = some c := by
  cases l with
  | nil => exact h
  | cons y t => exact strHead_append _ _ _ (strHead_append _ _ _ h)

/-- `joinSep` ends with the last character of its last element. -/
theorem joinSep_last (sep : String) (c : Char) :
    ∀ (l : List String) (x : String), l.getLast? = some x →
      x.data.getLast? = some c → (joinSep sep l).data.getLast? = some c := by
  intro l
  induction l with
  | nil => intro x hx _; exact Option.noConfusion hx
  | cons a t ih =>
    intro x hx hc
    cases t with
    | nil =>
      have hax : a = x := by simpa using hx
      subst hax
      exact hc
    | cons b t2 =>
      have hx2 : (b :: t2).getLast? = some x := by
        simpa [List.getLast?_cons_cons] using hx
      exact strLast_append _ _ _ (ih x hx2 hc)

/-- Package the shape facts of a block into `goodBlock`. -/
theorem goodBlock_of (s : String) (c : Char) (h1 : s.data.head? = some c)
    (h2 : c ≠ '\n') (h3 : s.data.getLast? = some '\x7d') : goodBlock s := by
  refine ⟨data_ne_nil_of_head h1, ?_, h3⟩
  rw [h1]
  intro he
  injection he with he2
  exact h2 he2

/-- A block of the shape `header { lines... }` (joined by newlines,
with a non-newline head character) is a good block. -/
theorem goodBlock_joinSep (hdr : String) (lines : List String) (c : Char)
    (hh : hdr.data.head? = some c) (hc : c ≠ '\n') :
    goodBlock (joinSep "\n" (hdr :: (lines ++ ["\x7d"]))) := by
  apply goodBlock_of _ c
  · exact joinSep_head _ _ _ _ hh
  · exact hc
  · apply joinSep_last _ _ _ "\x7d" ?_ rfl
    show ((hdr :: lines) ++ ["\x7d"]).getLast? = some "\x7d"
    exact List.getLast?_concat _

/-- The meta block is always emitted and well-shaped. -/
theorem goodBlock_meta (m : EndpointMeta) : goodBlock m.to_bru :=
  goodBlock_joinSep "meta \x7b"
    ["  name: " ++ m.endpoint_name, "  type: " ++ m.endpoint_type.value,
     "  seq: " ++ toString m.sequence] 'm' rfl (by decide)

/-- Shape of a config block given the lowered method name. -/
theorem goodBlock_config_of (mlow url : String) (bt : Option RequestBodyType)
    (c : Char) (hh : mlow.data.head? = some c) (hc : c ≠ '\n') :
    goodBlock (joinSep "\n"
      [mlow ++ " \x7b",
       "  url: \x7b\x7bhost\x7d\x7d" ++ url ++ "/",
       "  body: " ++ bodyTypeValue bt,
       "  auth: None", "\x7d"]) :=
  goodBlock_joinSep (mlow ++ " \x7b")
    ["  url: \x7b\x7bhost\x7d\x7d" ++ url ++ "/",
     "  body: " ++ bodyTypeValue bt,
     "  auth: None"] c (strHead_append _ _ _ hh) hc

/-- The config block is always emitted and well-shaped. -/
theorem goodBlock_config (cfg : EndpointConfig) : goodBlock cfg.to_bru := by
  obtain ⟨m, url, bt⟩ := cfg
  cases m with
  | GET => exact goodBlock_config_of "get" url bt 'g' rfl (by decide)
  | HEAD => exact goodBlock_config_of "head" url bt 'h' rfl (by decide)
  | POST => exact goodBlock_config_of "post" url bt 'p' rfl (by decide)
  | PUT => exact goodBlock_config_of "put" url bt 'p' rfl (by decide)
  | DELETE => exact goodBlock_config_of "delete" url bt 'd' rfl (by decide)
  | CONNECT => exact goodBlock_config_of "connect" url bt 'c' rfl (by decide)
  | OPTIONS => exact goodBlock_config_of "options" url bt 'o' rfl (by decide)
  | TRACE => exact goodBlock_config_of "trace" url bt 't' rfl (by decide)
  | PATCH => exact goodBlock_config_of "patch" url bt 'p' rfl (by decide)

/-- The headers block is empty or well-shaped. -/
theorem headers_block_shape (h : RequestHeaders) :
    h.to_bru = "" ∨ goodBlock h.to_bru := by
  obtain ⟨ct⟩ := h
  cases ct with
  | none => exact Or.inl rfl
  | some c =>
    by_cases hc : c = ""
    · exact Or.inl (by simp [RequestHeaders.to_bru, hc])
    · refine Or.inr ?_
      show goodBlock (if c = "" then ""
        else joinSep "\n" ["headers \x7b", "  Content-Type: " ++ c, "\x7d"])
      rw [if_neg hc]
      exact goodBlock_joinSep "headers \x7b"
        ["  Content-Type: " ++ c] 'h' rfl (by decide)

/-- The query block is empty or well-shaped. -/
theorem query_block_shape (q : RequestQuery) :
    q.to_bru = "" ∨ goodBlock q.to_bru := by
  obtain ⟨ps⟩ := q
  cases ps with
  | nil => exact Or.inl rfl
  | cons p t =>
    exact Or.inr (goodBlock_joinSep "query \x7b"
      ((p :: t).map (fun it : RequestPayloadItem => "  " ++ RequestPayloadItem.to_bru it)) 'q' rfl (by decide))

/-- A successfully rendered body block is empty or well-shaped. -/
theorem body_block_shape (b : RequestBody) (t : String)
    (h : RequestBody.to_bru b = .ok t) : t = "" ∨ goodBlock t := by
  unfold RequestBody.to_bru at h
  cases he : (b.props.isEmpty && b.json_data.isEmpty) with
  | true =>
    rw [he] at h
    simp only [if_pos] at h
    injection h with h2
    exact Or.inl h2.symm
  | false =>
    rw [he] at h
    simp only [Bool.false_eq_true, if_neg, not_false_iff] at h
    cases hp : props_to_bru b with
    | error e => rw [hp] at h; exact Except.noConfusion h
    | ok lines =>
      rw [hp] at h
      injection h with h2
      refine Or.inr ?_
      rw [← h2]
      exact goodBlock_joinSep _ lines 'b'
        (strHead_append _ _ 'b' (strHead_append _ _ 'b' (by rfl))) (by decide)

/-- The vars block is empty or well-shaped. -/
theorem vars_block_shape (v : EndpointVars) :
    v.to_bru = "" ∨ goodBlock v.to_bru := by
  obtain ⟨pre, post⟩ := v
  cases pre with
  | nil =>
    cases post with
    | nil => exact Or.inl rfl
    | cons q u =>
      exact Or.inr (goodBlock_joinSep "vars:post-request \x7b"
        ((q :: u).map (fun it : RequestPayloadItem => "  " ++ RequestPayloadItem.to_bru it)) 'v' rfl (by decide))
  | cons p t =>
    cases post with
    | nil =>
      exact Or.inr (goodBlock_joinSep "vars:pre-request \x7b"
        ((p :: t).map (fun it : RequestPayloadItem => "  " ++ RequestPayloadItem.to_bru it)) 'v' rfl (by decide))
    | cons q u =>
      refine Or.inr (goodBlock_of _ 'v' ?_ (by decide) ?_)
      · exact strHead_append _ _ _ (strHead_append _ _ _
          (joinSep_head "\n" "vars:pre-request \x7b"
            ((p :: t).map (fun it : RequestPayloadItem => "  " ++ RequestPayloadItem.to_bru it) ++ ["\x7d"]) 'v' rfl))
      · exact strLast_append _ _ _
          (goodBlock_joinSep "vars:post-request \x7b"
            ((q :: u).map (fun it : RequestPayloadItem => "  " ++ RequestPayloadItem.to_bru it)) 'v' rfl (by decide)).2.2

/-- The docs block is empty or well-shaped. -/
theorem docs_block_shape (d : EndpointDocs) :
    d.to_bru = "" ∨ goodBlock d.to_bru := by
  obtain ⟨desc⟩ := d
  by_cases hd : desc = ""
  · exact Or.inl (by simp [EndpointDocs.to_bru, hd])
  · refine Or.inr ?_
    show goodBlock (EndpointDocs.to_bru ⟨desc⟩)
    unfold EndpointDocs.to_bru
    rw [if_neg hd]
    exact goodBlock_joinSep "docs \x7b" ["  " ++ desc] 'd' rfl (by decide)

/-- Filtering out header-placed parameters first does not change a
filter that already excludes them. -/
theorem filter_drop_header (l : List Parameter) (pred : Parameter → Bool)
    (h : ∀ p, pred p = true → p.placement ≠ some ParamPlacement.HEADER) :
    (l.filter (fun p => p.placement ≠ some ParamPlacement.HEADER)).filter pred =
      l.filter pred := by
  induction l with
  | nil => rfl
  | cons p t ih =>
    cases hp : pred p with
    | true =>
      have hnh : (fun q : Parameter =>
          decide (q.placement ≠ some ParamPlacement.HEADER)) p = true :=
        decide_eq_true (h p hp)
      rw [@List.filter_cons_of_pos Parameter
          (fun q => decide (q.placement ≠ some ParamPlacement.HEADER)) p t hnh,
        List.filter_cons_of_pos hp, List.filter_cons_of_pos hp, ih]
    | false =>
      have hp2 : ¬ pred p = true := by rw [hp]; exact Bool.false_ne_true
      cases hnh : decide (p.placement ≠ some ParamPlacement.HEADER) with
      | true =>
        have hnh1 : (fun q : Parameter =>
            decide (q.placement ≠ some ParamPlacement.HEADER)) p = true := hnh
        rw [@List.filter_cons_of_pos Parameter
            (fun q => decide (q.placement ≠ some ParamPlacement.HEADER)) p t hnh1,
          List.filter_cons_of_neg hp2, List.filter_cons_of_neg hp2, ih]
      | false =>
        have hnh2 : ¬ (fun q : Parameter =>
            decide (q.placement ≠ some ParamPlacement.HEADER)) p = true := by
          intro hcon
          exact Bool.false_ne_true (hnh ▸ hcon)
        rw [@List.filter_cons_of_neg Parameter
            (fun q => decide (q.placement ≠ some ParamPlacement.HEADER)) p t hnh2,
          List.filter_cons_of_neg hp2, ih]

/-- `_couple_query` only reads the query-placed parameters, so it is
unchanged when the header-placed parameters are removed. -/
theorem couple_query_drop (e : Endpoint) :
    couple_query (dropHeaderParams e) = couple_query e := by
  have hfil := filter_drop_header e.queryParams
      (fun p => p.placement = some ParamPlacement.QUERY)
      (fun p hp => by rw [of_decide_eq_true hp]; decide)
  unfold couple_query
  rw [show (dropHeaderParams e).queryParams =
        e.queryParams.filter (fun p => p.placement ≠ some ParamPlacement.HEADER)
      from rfl, hfil]

/-- `_couple_vars` only reads the path-placed parameters, so it is
unchanged when the header-placed parameters are removed. -/
theorem couple_vars_drop (e : Endpoint) :
    couple_vars (dropHeaderParams e) = couple_vars e := by
  have hfil := filter_drop_header e.queryParams
      (fun p => p.placement = some ParamPlacement.PATH)
      (fun p hp => by rw [of_decide_eq_true hp]; decide)
  unfold couple_vars
  rw [show (dropHeaderParams e).queryParams =
        e.queryParams.filter (fun p => p.placement ≠ some ParamPlacement.HEADER)
      from rfl, hfil]

/-- Coupling an endpoint is completely insensitive to its header-placed
parameters: meta, config, headers, body and docs never read the
parameter list, and query/vars filter header-placed parameters out. -/
theorem couple_endpoint_drop (seq : Nat) (e : Endpoint) :
    couple_endpoint seq e = couple_endpoint seq (dropHeaderParams e) := by
  unfold couple_endpoint
  rw [couple_query_drop, couple_vars_drop]
  rfl

/-! ## Claim theorems -/

/-- C1: the claim promises that for every valid input schema the
pipeline generates exactly one document per (path, method) entry with
`Meta.sequence` exactly `1..N`.  The code breaks this for any schema
with a body-less endpoint: `_couple_body`'s `case None` pattern can
never match the computed `RequestBodyType.NONE` member, so coupling the
single GET endpoint of `schemaOneGet` raises
`ValueError: Unsupported body type: RequestBodyType.NONE` and the run
produces zero documents for one entry. -/
theorem claim_C1_bodyless_endpoint_aborts_run :
    pipeline schemaOneGet =
      .ok ([], some "ValueError: Unsupported body type: RequestBodyType.NONE")
    ∧ totalEntries schemaOneGet = 1 :=
  ⟨rfl, rfl⟩

/-- C2: the claim says a JSON body property matching none of the three
recognized cases is a parse error and is never silently skipped.  The
code's final `else` branch is a bare `print()`: on
`jsonSchemaWithWeirdProp` the property `weird` (no `type`, no `allOf`,
no `$ref`) is silently dropped and parsing returns a `Body` that simply
omits it. -/
theorem claim_C2_unmatched_property_silently_skipped :
    parse_body_json [] FUEL jsonSchemaWithWeirdProp =
      .ok { content_type := .JSON,
            payload := [.param { name := "ok", type_ := "string", required := true }] } :=
  rfl

/-- C3: the claim expects the pipeline to produce a document with a
`body:form-urlencoded` block holding the two lines `name: ` and
`age: `.  The parser does classify the body as form-urlencoded
(`apiFormPost`), but coupling then aborts before any document exists:
`_couple_headers` passes the `RequestBodyType.FORM_URL_ENCODED` enum
member into the `str | None` field `content_type`, pydantic raises
`ValidationError`, and the run writes zero documents for the one
(path, method) entry. -/
theorem claim_C3_form_body_coupling_crashes :
    parse schemaFormPost = .ok apiFormPost
    ∧ pipeline schemaFormPost = .ok ([], some headersValidationError)
    ∧ totalEntries schemaFormPost = 1 :=
  ⟨rfl, rfl, rfl⟩

/-- C4 counterexample: the claim says a path containing `{` is written
into the API model unchanged; in fact the parser rewrites it with
`dup_fig_par` first, so `/items/\x7bid\x7d` is stored as the key
`/items/\x7b\x7bid\x7d\x7d`. -/
theorem claim_C4_counterexample :
    (parse schemaPlaceholderPath).map (fun api => api.paths.map Prod.fst) =
      .ok ["/items/\x7b\x7bid\x7d\x7d"]
    ∧ ("/items/\x7b\x7bid\x7d\x7d" : String) ≠ "/items/\x7bid\x7d" :=
  ⟨rfl, by decide⟩

/-- C4 amended: the Schema Parser stores every path under
`transformPath`: a path containing `{` has every `{` doubled to `{{`
and every `}` to `}}` (escaping happens in the parser itself), and a
path without `{` is written through unchanged. -/
theorem claim_C4_amended_escaping_at_parse_time :
    ∀ (s : OpenAPISchema) (api : API), parse s = .ok api →
      api.paths.map Prod.fst = s.paths.map (fun pm => transformPath pm.1) := by
  intro s api h
  cases hm : mapE (parse_path_entry s.components) s.paths with
  | error e => simp [parse, hm] at h
  | ok entries =>
    simp [parse, hm] at h
    rw [← h]
    exact mapE_ok_map _ _ _ (fun a b hb => parse_path_entry_ok_fst _ a b hb) s.paths entries hm

/-- C4 amended, witnessed at `schemaPlaceholderPath`. -/
theorem claim_C4_amended_witness :
    apiPlaceholder.paths.map Prod.fst =
      schemaPlaceholderPath.paths.map (fun pm => transformPath pm.1) :=
  claim_C4_amended_escaping_at_parse_time schemaPlaceholderPath apiPlaceholder rfl

/-- C5 counterexample: the claim says a header-placed parameter is
rejected with an explicit unsupported-configuration error and never
silently dropped.  Coupling `endpointWithHeaderParam` (one header-placed
parameter `X-Token`, a JSON body) fails with the headers
`ValidationError` — an error about the body's content type, not about
the parameter — and coupling the same endpoint with the header
parameter removed fails *identically*, so the parameter triggers no
rejection at all; at the block level, `_couple_query` and
`_couple_vars` succeed with the parameter in no block. -/
theorem claim_C5_counterexample_param_ignored :
    couple_endpoint 1 endpointWithHeaderParam = .error headersValidationError
    ∧ couple_endpoint 1 (dropHeaderParams endpointWithHeaderParam) =
        .error headersValidationError
    ∧ (couple_query endpointWithHeaderParam).map (fun q => q.params) = .ok []
    ∧ (couple_vars endpointWithHeaderParam).map
        (fun v => (v.pre_request, v.post_request)) = .ok ([], []) :=
  ⟨rfl, rfl, rfl, rfl⟩

/-- C5 amended: coupling never rejects a header-placed endpoint
parameter — it ignores it.  Removing all header-placed parameters from
an endpoint leaves `_couple_endpoint`'s result unchanged (whatever
succeeds or fails, does so for unrelated reasons), and at the block
level the query block keeps exactly the query-placed parameters and
the pre-request vars exactly the path-placed ones, both couplings
always succeeding with post-request vars empty, so a header-placed
parameter lands in no block. -/
theorem claim_C5_amended_header_params_dropped :
    (∀ (seq : Nat) (e : Endpoint),
        couple_endpoint seq e = couple_endpoint seq (dropHeaderParams e))
    ∧ ∀ (e : Endpoint), ∃ q v,
      couple_query e = .ok q ∧ couple_vars e = .ok v ∧
      q.params.length =
        (e.queryParams.filter (fun p => p.placement = some ParamPlacement.QUERY)).length ∧
      v.pre_request.length =
        (e.queryParams.filter (fun p => p.placement = some ParamPlacement.PATH)).length ∧
      v.post_request = [] := by
  refine ⟨couple_endpoint_drop, ?_⟩
  intro e
  have hallq : ∀ p ∈ e.queryParams.filter
      (fun p => p.placement = some ParamPlacement.QUERY), ∃ b, couple_param p = .ok b := by
    intro p hp
    have hpl : p.placement = some ParamPlacement.QUERY := by
      simpa using List.of_mem_filter hp
    exact ⟨_, couple_param_ok_of_ne_header p (by rw [hpl]; simp)⟩
  have hallv : ∀ p ∈ e.queryParams.filter
      (fun p => p.placement = some ParamPlacement.PATH), ∃ b, couple_param p = .ok b := by
    intro p hp
    have hpl : p.placement = some ParamPlacement.PATH := by
      simpa using List.of_mem_filter hp
    exact ⟨_, couple_param_ok_of_ne_header p (by rw [hpl]; simp)⟩
  obtain ⟨rq, hrq, hlq⟩ := mapE_ok_of_forall couple_param _ hallq
  obtain ⟨rv, hrv, hlv⟩ := mapE_ok_of_forall couple_param _ hallv
  refine ⟨{ params := rq }, { pre_request := rv, post_request := [] },
    ?_, ?_, hlq, hlv, rfl⟩
  · unfold couple_query; rw [hrq]
  · unfold couple_vars; rw [hrv]

/-- C6 counterexample: the claim says a missing intermediate key makes
the resolver return an absent/null result rather than raising; in fact
with `#/a/b` on an empty document the missing key `a` leaves `None`,
and the next step calls `.get` on `None`, raising `AttributeError`. -/
theorem claim_C6_counterexample :
    schema_from_ref [] "#/a/b" =
      .error "AttributeError: 'NoneType' object has no attribute 'get'" :=
  rfl

/-- C6 amended: the resolver returns an absent result only when the
*final* key of the walk is missing; whenever a non-final key is
missing, the following `.get` call on `None` raises `AttributeError`
instead of returning an absent result. -/
theorem claim_C6_amended_missing_intermediate_raises :
    (∀ (st : Option JVal) (ps : List String) (fs : List (String × JVal)) (p : String),
        resolve_walk st ps = .ok (some (.obj fs)) → pyGet fs p = none →
        resolve_walk st (ps ++ [p]) = .ok none)
    ∧ (∀ (st : Option JVal) (ps : List String) (fs : List (String × JVal))
        (p q : String) (rest : List String),
        resolve_walk st ps = .ok (some (.obj fs)) → pyGet fs p = none →
        resolve_walk st (ps ++ p :: q :: rest) =
          .error "AttributeError: 'NoneType' object has no attribute 'get'") := by
  constructor
  · intro st ps fs p h hg
    rw [resolve_walk_append ps [p] st, h]
    simp [resolve_walk, hg]
  · intro st ps fs p q rest h hg
    rw [resolve_walk_append ps (p :: q :: rest) st, h]
    simp [resolve_walk, hg]

/-- C6 amended, witnessed on a one-key walk (missing final key gives
`ok none`) and a two-key walk (missing first key raises). -/
theorem claim_C6_amended_witness :
    resolve_walk (some (.obj [])) ["k"] = .ok none
    ∧ resolve_walk (some (.obj [])) ["k", "x"] =
        .error "AttributeError: 'NoneType' object has no attribute 'get'" :=
  ⟨claim_C6_amended_missing_intermediate_raises.1 (some (.obj [])) [] [] "k" rfl rfl,
   claim_C6_amended_missing_intermediate_raises.2 (some (.obj [])) [] [] "k" "x" [] rfl rfl⟩

/-- C7: an unsupported HTTP method makes `parse` fail with an
identifiable error (`schemaWithOptions` fails with the `KeyError`
naming the method), and whenever `parse` succeeds, every method entry
of the input resolved to one of the four supported `HTTPMethod`
members — no entry is skipped or truncated away. -/
theorem claim_C7_unknown_method_fails :
    parse schemaWithOptions = .error "KeyError: HTTPMethod.OPTIONS"
    ∧ (∀ (s : OpenAPISchema) (api : API), parse s = .ok api →
        ∀ pm ∈ s.paths, ∀ me ∈ pm.2, ∃ m,
          HTTPMethod.ofValue (pyUpper me.1) = some m ∧
          m ∈ [HTTPMethod.GET, HTTPMethod.POST, HTTPMethod.PUT, HTTPMethod.DELETE]) := by
  constructor
  · rfl
  · intro s api h pm hpm me hme
    obtain ⟨ep, hep⟩ := parse_ok_method_entries h pm hpm me hme
    exact parse_method_entry_ok_method _ _ _ _ _ hep

/-- C7, witnessed on the successfully parsed `schemaFormPost`. -/
theorem claim_C7_witness :
    ∃ m, HTTPMethod.ofValue (pyUpper "post") = some m ∧
      m ∈ [HTTPMethod.GET, HTTPMethod.POST, HTTPMethod.PUT, HTTPMethod.DELETE] :=
  claim_C7_unknown_method_fails.2 schemaFormPost apiFormPost rfl
    _ (List.mem_cons_self _ _) _ (List.mem_cons_self _ _)

/-- C9: a coupled leaf item renders as
`<marker><name>: <value>` with the `~` marker exactly when the source
parameter was not required (the coupler sets `selected := required`),
and the required `id` / optional `limit` parameters of
`schemaQueryParams` render as `id: ` and `~limit: 10`. -/
theorem claim_C9_query_line_rendering :
    (∀ (p : Parameter) (it : RequestPayloadItem), couple_param p = .ok it →
        it.to_bru =
          (if p.required then "" else "~") ++ p.name ++ ": " ++
            (match p.default with
             | some v => if v.truthy then pyShow FUEL v else ""
             | none => ""))
    ∧ parse schemaQueryParams = .ok apiQueryParams
    ∧ (couple_query endpointItemsGet).map
        (fun q => q.params.map RequestPayloadItem.to_bru) =
      .ok ["id: ", "~limit: 10"] := by
  refine ⟨?_, rfl, rfl⟩
  intro p it h
  cases hpl : p.placement with
  | none =>
    simp [couple_param, hpl] at h
    subst h
    rfl
  | some pl =>
    cases pl with
    | PATH =>
      simp [couple_param, hpl] at h
      subst h
      rfl
    | QUERY =>
      simp [couple_param, hpl] at h
      subst h
      rfl
    | HEADER => simp [couple_param, hpl] at h

/-- C9, witnessed on the optional `limit` parameter. -/
theorem claim_C9_witness :
    limitItemModel.to_bru =
      (if limitParamModel.required then "" else "~") ++ limitParamModel.name ++ ": " ++
        (match limitParamModel.default with
         | some v => if v.truthy then pyShow FUEL v else ""
         | none => "") :=
  claim_C9_query_line_rendering.1 limitParamModel limitItemModel rfl

/-- C10: an endpoint without a truthy `summary` makes `parse` raise
(`data('description')` calls the dict), so `schemaDescriptionOnly`
fails with `TypeError`; whenever `parse` succeeds, every method entry
carried a truthy `summary`; and a successful `_parse_get` /
`_parse_delete` always takes its description from `summary`, never
from the `description` key. -/
theorem claim_C10_missing_summary_fails :
    parse schemaDescriptionOnly = .error "TypeError: 'dict' object is not callable"
    ∧ (∀ (s : OpenAPISchema) (api : API), parse s = .ok api →
        ∀ pm ∈ s.paths, ∀ me ∈ pm.2, ∃ t, me.2.summary = some t ∧ t ≠ "")
    ∧ (∀ (comps : List (String × RawComponentSchema)) (path : String)
        (md : RawMethodData) (ep : Endpoint), parse_get comps path md = .ok ep →
        md.summary = some ep.description ∧ ep.description ≠ "")
    ∧ (∀ (comps : List (String × RawComponentSchema)) (path : String)
        (md : RawMethodData) (ep : Endpoint), parse_delete comps path md = .ok ep →
        md.summary = some ep.description ∧ ep.description ≠ "") := by
  refine ⟨rfl, ?_, ?_, ?_⟩
  · intro s api h pm hpm me hme
    obtain ⟨ep, hep⟩ := parse_ok_method_entries h pm hpm me hme
    obtain ⟨hsum, hne⟩ := descriptionOf_ok _ _ (parse_method_entry_ok_desc _ _ _ _ _ hep)
    exact ⟨ep.description, hsum, hne⟩
  · intro comps path md ep h
    exact descriptionOf_ok _ _ (parse_get_ok_desc _ _ _ _ h)
  · intro comps path md ep h
    exact descriptionOf_ok _ _ (parse_with_body_ok_desc _ _ _ _ _ h)

/-- C10, witnessed on the successfully parsed GET entry of
`schemaOneGet`. -/
theorem claim_C10_witness :
    ({ summary := some "List items" } : RawMethodData).summary =
        some epOneGet.description
    ∧ epOneGet.description ≠ "" :=
  claim_C10_missing_summary_fails.2.2.1 [] "/items"
    { summary := some "List items" } epOneGet rfl

/-- C8: every successfully serialized target model renders as the
non-empty block texts, taken in the fixed order meta, config, headers,
query, body, vars, docs, joined by one blank line, with a single
trailing newline: each emitted block text is non-empty, starts with a
non-newline character and ends with the closing `\x7d`, so consecutive
blocks are separated by exactly one blank line, the document's last
character is a newline, and the character before it is the final
block's `\x7d` (exactly one trailing newline).  An empty block
contributes no text at all (it is filtered out before joining). -/
theorem claim_C8_block_serialization :
    ∀ (e : BrunoEndpoint) (doc : String), BrunoEndpoint.to_bru e = .ok doc →
      ∃ bodyTxt, RequestBody.to_bru e.body = .ok bodyTxt ∧
        doc = joinSep "\n\n"
          ((bruBlockList e bodyTxt).filter (fun s => s ≠ "")) ++ "\n" ∧
        (∀ s ∈ (bruBlockList e bodyTxt).filter (fun s => s ≠ ""), goodBlock s) ∧
        doc.data.getLast? = some '\n' ∧
        ((bruBlockList e bodyTxt).filter (fun s => s ≠ "") ≠ [] →
          doc.data.dropLast.getLast? = some '\x7d') := by
  intro e doc h
  cases hbt : RequestBody.to_bru e.body with
  | error err =>
    simp [BrunoEndpoint.to_bru, BrunoEndpoint.blockTexts, hbt] at h
  | ok bodyTxt =>
    have hblocks : BrunoEndpoint.blockTexts e = .ok (bruBlockList e bodyTxt) := by
      unfold BrunoEndpoint.blockTexts bruBlockList
      rw [hbt]
    have hdoc : doc =
        joinSep "\n\n" ((bruBlockList e bodyTxt).filter (fun s => s ≠ "")) ++ "\n" := by
      unfold BrunoEndpoint.to_bru at h
      rw [hblocks] at h
      injection h with h2
      exact h2.symm
    have hgood : ∀ s ∈ (bruBlockList e bodyTxt).filter (fun s => s ≠ ""),
        goodBlock s := by
      intro s hs
      rw [List.mem_filter] at hs
      obtain ⟨hmem, hneb⟩ := hs
      have hne : s ≠ "" := of_decide_eq_true hneb
      simp only [bruBlockList, List.mem_cons, List.not_mem_nil, or_false] at hmem
      rcases hmem with rfl | rfl | rfl | rfl | rfl | rfl | rfl
      · exact goodBlock_meta e.meta
      · exact goodBlock_config e.config
      · exact (headers_block_shape e.headers).resolve_left hne
      · exact (query_block_shape e.query).resolve_left hne
      · exact (body_block_shape e.body _ hbt).resolve_left hne
      · exact (vars_block_shape e.vars).resolve_left hne
      · exact (docs_block_shape e.docs).resolve_left hne
    refine ⟨bodyTxt, rfl, hdoc, hgood, ?_, ?_⟩
    · rw [hdoc]
      exact strLast_append _ _ _ rfl
    · intro hnemp
      rw [hdoc, String.data_append,
        show ("\n" : String).data = ['\n'] from rfl, List.dropLast_concat]
      have hlast := List.getLast?_eq_getLast _ hnemp
      have hmem := List.getLast_mem hnemp
      exact joinSep_last _ _ _ _ hlast (hgood _ hmem).2.2

/-- C8, witnessed on `simpleBru`, whose document is exactly
`simpleBruDoc`. -/
theorem claim_C8_witness :
    ∃ bodyTxt, RequestBody.to_bru simpleBru.body = .ok bodyTxt ∧
      simpleBruDoc = joinSep "\n\n"
        ((bruBlockList simpleBru bodyTxt).filter (fun s => s ≠ "")) ++ "\n" ∧
      (∀ s ∈ (bruBlockList simpleBru bodyTxt).filter (fun s => s ≠ ""), goodBlock s) ∧
      simpleBruDoc.data.getLast? = some '\n' ∧
      ((bruBlockList simpleBru bodyTxt).filter (fun s => s ≠ "") ≠ [] →
        simpleBruDoc.data.dropLast.getLast? = some '\x7d') :=
  claim_C8_block_serialization simpleBru simpleBruDoc rfl

end PyBru
